import Mathlib

/-!
Verification of the Biography Generation Workflow implemented in
`src/pages/Home.tsx` of the ai-biography-generator repository.

The embedding covers the React component state (the six `useState` hooks of
`Home`), the `generateBiography` handler with the awaited provider call as its
suspension point, the prompt template, the submit-button guard, and the
`copyToClipboard` handler with its 2000 ms acknowledgment timer.

Phase mapping used throughout: `Loading` is `loading = true`; `Error` is
`error ≠ none`; `Success` is a non-empty `biography`; `Idle` is the rest.
-/

set_option maxRecDepth 8000

namespace BioGen

/-- Model of JavaScript `String.prototype.trim` over the ASCII whitespace
characters: removes leading and trailing whitespace, leaves interior
characters untouched. -/
def jsTrim (s : String) : String :=
  ⟨((s.data.dropWhile Char.isWhitespace).reverse.dropWhile Char.isWhitespace).reverse⟩

/-- Substring containment: `sub` occurs contiguously inside `s`. -/
def strContains (s sub : String) : Prop :=
  sub.data <:+: s.data

instance (s sub : String) : Decidable (strContains s sub) := by
  unfold strContains
  infer_instance

/-- Generic catch-all message of the handler (`Home.tsx` line 68). -/
def genericErrorMsg : String :=
  "An error occurred while generating the biography"

/-- Message of the `Error` thrown when `genAI` is not configured
(`Home.tsx` line 53). -/
def apiKeyMsg : String :=
  "API key not configured. Please add your Gemini API key to continue."

/-- Value thrown inside the `try` block: either a JavaScript `Error` object
carrying a `message`, or some non-`Error` value for which
`err instanceof Error` fails. -/
inductive JsError where
  | errorObj (message : String)
  | other
deriving DecidableEq

/-- Mirrors the catch-block message selection
`err instanceof Error ? err.message : ...` (`Home.tsx` line 68). -/
def errToMessage : JsError → String
  | .errorObj m => m
  | .other => genericErrorMsg

/-- Outcome of the awaited `model.generateContent(prompt)` call: it either
resolves with response text (`result.response.text()`) or rejects with a
thrown value. -/
inductive ProviderOutcome where
  | ok (text : String)
  | thrown (e : JsError)
deriving DecidableEq

/-- React component state of `Home` (`Home.tsx` lines 39 to 44): the six
`useState` hooks. `error : Option String` mirrors
`useState<string | null>(null)`. -/
structure ComponentState where
  bioInfo : String
  bioType : String
  biography : String
  loading : Bool
  copied : Bool
  error : Option String
deriving DecidableEq

/-- Initial render state, from the `useState` initialisers. -/
def initialState : ComponentState :=
  { bioInfo := "", bioType := "professional", biography := "", loading := false,
    copied := false, error := none }

/-- Prompt template (`Home.tsx` lines 57 to 63): a pure function of the
selected biography type and the entered information. The two template
literals are reproduced verbatim, newlines and indentation included, with
`${bioInfo}` spliced in; the branch condition is `bioType === 'professional'`. -/
def buildPrompt (bioType bioInfo : String) : String :=
  if bioType = "professional" then
    "Create a professional biography based on the following information: " ++ bioInfo ++ ". \n           The biography should be formal, highlight achievements, and be suitable for professional platforms like LinkedIn or company websites.\n           Include relevant accomplishments, experience, and expertise. Keep it between 150-300 words."
  else
    "Create an engaging social media bio based on the following information: " ++ bioInfo ++ ".\n           The bio should be concise, engaging, and perfect for platforms like Twitter, Instagram, or TikTok.\n           Make it catchy and memorable while highlighting key aspects. Keep it under 160 characters."

/-- Synchronous prefix of `generateBiography` after its guard passes:
`setLoading(true); setError(null)` (`Home.tsx` lines 49 and 50). -/
def startState (s : ComponentState) : ComponentState :=
  { s with loading := true, error := none }

/-- Success path `setBiography(result.response.text().trim())`
(`Home.tsx` line 66). -/
def applySuccess (text : String) (s : ComponentState) : ComponentState :=
  { s with biography := jsTrim text }

/-- Catch block (`Home.tsx` lines 67 to 70): `setError(...)` with the selected
message, then `setBiography('')`. -/
def applyFailure (e : JsError) (s : ComponentState) : ComponentState :=
  { s with error := some (errToMessage e), biography := "" }

/-- Settlement of the provider call: the success path or the catch block. -/
def applyOutcome (o : ProviderOutcome) (s : ComponentState) : ComponentState :=
  match o with
  | .ok text => applySuccess text s
  | .thrown e => applyFailure e s

/-- Finally block `setLoading(false)` (`Home.tsx` line 72). -/
def finallyStep (s : ComponentState) : ComponentState :=
  { s with loading := false }

/-- Whole run of `generateBiography` (`Home.tsx` lines 46 to 73) from
invocation to settlement, with no other event interleaved. The guard
`if (!bioInfo.trim()) return;` aborts on empty or whitespace-only input.
`outcome` is how the provider call settles when it is dispatched. The second
component records whether the provider call was actually invoked.

`cfg` is whether the provider client `genAI` imported from `@/lib/gemini` is
non-null. That module is not part of this snapshot; modelled from the spec:
`genAI` is non-null exactly when a provider credential is configured, so `cfg`
stands for credential presence. When `cfg` is false the handler throws before
`getGenerativeModel`, so the whole run is synchronous and the call count
stays zero. -/
def generateBiography (cfg : Bool) (outcome : ProviderOutcome)
    (s : ComponentState) : ComponentState × Bool :=
  if jsTrim s.bioInfo = "" then (s, false)
  else if cfg then
    (finallyStep (applyOutcome outcome (startState s)), true)
  else
    (finallyStep (applyFailure (.errorObj apiKeyMsg) (startState s)), false)

/-- Submit-button guard `disabled={loading || !bioInfo.trim()}`
(`Home.tsx` line 126). -/
def submitDisabled (s : ComponentState) : Bool :=
  s.loading || jsTrim s.bioInfo == ""

/-- One UI event step of the workflow, with the awaited provider call as the
suspension point. `cfg` is fixed for the session (module-level `genAI`).
Submission steps require the submit button enabled; the copy step requires a
rendered result (the copy button sits inside `{biography && ...}`). A state
with `loading = true` has exactly one outstanding call, started by
`submitStart`, and `resolve` is its settlement; the disabled button prevents a
second submission while it is outstanding. The textarea and the type selector
stay enabled throughout, and the selector offers exactly the two items
`professional` and `social`. -/
inductive Step (cfg : Bool) : ComponentState → ComponentState → Prop where
  | edit (s : ComponentState) (v : String) :
      Step cfg s { s with bioInfo := v }
  | selectType (s : ComponentState) (v : String)
      (h : v = "professional" ∨ v = "social") :
      Step cfg s { s with bioType := v }
  | submitStart (s : ComponentState) (hc : cfg = true)
      (h : submitDisabled s = false) :
      Step cfg s (startState s)
  | resolve (s : ComponentState) (o : ProviderOutcome) (hc : cfg = true)
      (h : s.loading = true) :
      Step cfg s (finallyStep (applyOutcome o s))
  | submitNoConfig (s : ComponentState) (hc : cfg = false)
      (h : submitDisabled s = false) :
      Step cfg s (finallyStep (applyFailure (.errorObj apiKeyMsg) (startState s)))
  | copy (s : ComponentState) (h : s.biography ≠ "") :
      Step cfg s { s with copied := true }
  | copyTimerFire (s : ComponentState) :
      Step cfg s { s with copied := false }

/-- States reachable from the initial render through UI events. -/
def Reachable (cfg : Bool) (s : ComponentState) : Prop :=
  Relation.ReflTransGen (Step cfg) initialState s

/-- Interleaved double submission (`Home.tsx` lines 46 to 73): submission A
passes the guard and runs its synchronous prefix, submission B does the same
before the call of A resolves, then the response of B settles, then the
response of A settles. Each settlement applies its `setBiography` or
`setError` and then `setLoading(false)` unconditionally: the code tracks no
request token and compares nothing before applying a response. `startState`
leaves `bioInfo` unchanged, so the guard of B coincides with the guard of A. -/
def staleRun (oA oB : ProviderOutcome) (s : ComponentState) : ComponentState :=
  if jsTrim s.bioInfo = "" then s
  else
    finallyStep (applyOutcome oA (finallyStep (applyOutcome oB (startState (startState s)))))

/-- Timed model of `copyToClipboard` (`Home.tsx` lines 75 to 79). Each
invocation at absolute time `c` runs `setCopied(true)` and schedules
`setTimeout(() => setCopied(false), 2000)`; the code keeps no timer handle and
never calls `clearTimeout`, so every scheduled reset fires. Given the list of
copy invocation times, the flag at time `t` is the value written by the
latest event at or before `t`: a write of `true` at each `c`, a write of
`false` at each `c + 2000`. A copy at the same instant as a firing timer is
taken to run after it. -/
def copiedAt (copies : List Nat) (t : Nat) : Bool :=
  copies.any fun c =>
    decide (c ≤ t) && copies.all fun c2 =>
      decide (¬(c2 + 2000 ≤ t)) || decide (c2 + 2000 ≤ c)

/-- Invariant carried through the step relation: while a call is outstanding
the error slot is clear (the synchronous prefix ran `setError(null)`), and at
most one of the result and the error is populated. -/
def StateInv (s : ComponentState) : Prop :=
  (s.loading = true → s.error = none) ∧ (s.error = none ∨ s.biography = "")

lemma stateInv_initial : StateInv initialState := by
  constructor <;> simp [initialState]

lemma stateInv_step {cfg : Bool} {s t : ComponentState}
    (h : Step cfg s t) (hs : StateInv s) : StateInv t := by
  cases h with
  | edit v =>
      exact hs
  | selectType v h =>
      exact hs
  | submitStart hc h =>
      refine ⟨fun _ => rfl, Or.inl rfl⟩
  | resolve o hc h =>
      cases o with
      | ok text =>
          exact ⟨by simp [finallyStep, applyOutcome, applySuccess],
            Or.inl (by simpa [finallyStep, applyOutcome, applySuccess] using hs.1 h)⟩
      | thrown e =>
          exact ⟨by simp [finallyStep, applyOutcome, applyFailure],
            Or.inr (by simp [finallyStep, applyOutcome, applyFailure])⟩
  | submitNoConfig hc h =>
      exact ⟨by simp [finallyStep, applyFailure, startState],
        Or.inr (by simp [finallyStep, applyFailure, startState])⟩
  | copy h =>
      exact hs
  | copyTimerFire =>
      exact hs

lemma stateInv_reachable {cfg : Bool} {s : ComponentState}
    (h : Reachable cfg s) : StateInv s := by
  induction h with
  | refl => exact stateInv_initial
  | tail _ hstep ih => exact stateInv_step hstep ih

lemma strContains_sandwich (pre mid suf : String) :
    strContains (pre ++ mid ++ suf) mid :=
  ⟨pre.data, suf.data, by simp [strContains, String.data_append]⟩

lemma strContains_right (a b sub : String) (h : strContains b sub) :
    strContains (a ++ b) sub := by
  unfold strContains at *
  have h2 : b.data <:+: (a ++ b).data := ⟨a.data, [], by simp [String.data_append]⟩
  exact h.trans h2

end BioGen

namespace BioGen

/-- C3: prompt construction is a deterministic, side-effect-free function of
the entered information and the selected style (`buildPrompt` is a pure
function of its two arguments by construction). For every non-empty `rawInfo`,
the professional prompt contains `rawInfo` verbatim together with the
150-300-word instruction, and the social prompt contains `rawInfo` verbatim
together with the under-160-characters instruction. -/
theorem c3_prompt_contains (info : String) (h : info ≠ "") :
    strContains (buildPrompt "professional" info) info ∧
    strContains (buildPrompt "professional" info) "Keep it between 150-300 words." ∧
    strContains (buildPrompt "social" info) info ∧
    strContains (buildPrompt "social" info) "Keep it under 160 characters." := by
  simp only [buildPrompt, reduceIte]
  refine ⟨strContains_sandwich _ _ _, ?_, strContains_sandwich _ _ _, ?_⟩
  · apply strContains_right
    decide
  · apply strContains_right
    decide

/-- Witness for C3 at the concrete input "Ada Lovelace". -/
theorem c3_prompt_contains_witness :
    ("Ada Lovelace" : String) ≠ "" ∧
    strContains (buildPrompt "professional" "Ada Lovelace") "Ada Lovelace" :=
  ⟨by decide, (c3_prompt_contains "Ada Lovelace" (by decide)).1⟩

end BioGen

namespace BioGen

/-- C1 (counterexample): the code tracks no request token. In the
interleaving where submission A is issued, submission B is issued before A
resolves, the response of B settles first and the response of A settles last,
the final biography is the text from A — the final state does not reflect
only the outcome of B, contrary to the claim. -/
theorem c1_counterexample :
    (staleRun (.ok "Biography from submission A") (.ok "Biography from submission B")
        { initialState with bioInfo := "Ada Lovelace" }).biography ≠
      "Biography from submission B" := by
  decide

/-- C1 (amended): when submission B is issued before submission A resolves
and the response of A arrives after the response of B, the final state
reflects the outcome of A — the last response applied wins, since every
settlement runs its state updates unconditionally and no request token
exists. Overlapping submissions are prevented only at the UI: while the call
of A is outstanding, the submit button is disabled. -/
theorem c1_last_response_wins (s : ComponentState) (tA : String)
    (oB : ProviderOutcome) (h : jsTrim s.bioInfo ≠ "") :
    (staleRun (.ok tA) oB s).biography = jsTrim tA ∧
    (∀ e : JsError, (staleRun (.thrown e) oB s).error = some (errToMessage e)) ∧
    submitDisabled (startState s) = true := by
  refine ⟨?_, fun e => ?_, ?_⟩
  · cases oB <;>
      simp [staleRun, h, startState, finallyStep, applyOutcome, applySuccess, applyFailure]
  · cases oB <;>
      simp [staleRun, h, startState, finallyStep, applyOutcome, applySuccess, applyFailure]
  · simp [submitDisabled, startState]

/-- Witness for C1 (amended) at a concrete overlapping pair of submissions. -/
theorem c1_last_response_wins_witness :
    jsTrim ({ initialState with bioInfo := "Ada Lovelace" } : ComponentState).bioInfo ≠ "" ∧
    (staleRun (.ok "From A") (.ok "From B")
        { initialState with bioInfo := "Ada Lovelace" }).biography = jsTrim "From A" :=
  ⟨by decide,
    (c1_last_response_wins { initialState with bioInfo := "Ada Lovelace" }
      "From A" (.ok "From B") (by decide)).1⟩

/-- C2: in every reachable workflow state at most one of the generation
result and the error message is populated, and the error transition (the
catch block) always clears any previously displayed result. -/
theorem c2_mutual_exclusion (cfg : Bool) (s : ComponentState)
    (h : Reachable cfg s) :
    (s.error = none ∨ s.biography = "") ∧
    ∀ (e : JsError) (s2 : ComponentState), (applyFailure e s2).biography = "" :=
  ⟨(stateInv_reachable h).2, fun _ _ => rfl⟩

/-- Witness for C2 at the initial state, reachable in zero steps. -/
theorem c2_mutual_exclusion_witness :
    (initialState.error = none ∨ initialState.biography = "") ∧
    ∀ (e : JsError) (s2 : ComponentState), (applyFailure e s2).biography = "" :=
  c2_mutual_exclusion true initialState Relation.ReflTransGen.refl

/-- C4: a submission whose `bioInfo` trims to the empty string is a no-op:
the guard returns before any state update, so phase, result and error are
unchanged and the provider call is never invoked. -/
theorem c4_blank_submit_noop (cfg : Bool) (o : ProviderOutcome)
    (s : ComponentState) (h : jsTrim s.bioInfo = "") :
    generateBiography cfg o s = (s, false) := by
  simp [generateBiography, h]

/-- Witness for C4 with whitespace-only input. -/
theorem c4_blank_submit_noop_witness :
    jsTrim ({ initialState with bioInfo := "   " } : ComponentState).bioInfo = "" ∧
    generateBiography true (.ok "text") { initialState with bioInfo := "   " } =
      ({ initialState with bioInfo := "   " }, false) :=
  ⟨by decide, c4_blank_submit_noop true (.ok "text") _ (by decide)⟩

/-- C5: with no provider credential configured (`genAI` null), an accepted
submission transitions directly to the Error phase with the
configuration-specific message, the result is cleared, loading ends, and the
provider call is never invoked (call count 0). -/
theorem c5_missing_credential (o : ProviderOutcome) (s : ComponentState)
    (h : jsTrim s.bioInfo ≠ "") :
    (generateBiography false o s).1.error = some apiKeyMsg ∧
    (generateBiography false o s).1.biography = "" ∧
    (generateBiography false o s).1.loading = false ∧
    (generateBiography false o s).2 = false := by
  simp [generateBiography, h, finallyStep, applyFailure, startState, errToMessage]

/-- Witness for C5 at a concrete accepted submission. -/
theorem c5_missing_credential_witness :
    jsTrim ({ initialState with bioInfo := "Ada Lovelace" } : ComponentState).bioInfo ≠ "" ∧
    (generateBiography false (.ok "never used")
        { initialState with bioInfo := "Ada Lovelace" }).1.error = some apiKeyMsg :=
  ⟨by decide,
    (c5_missing_credential (.ok "never used")
      { initialState with bioInfo := "Ada Lovelace" } (by decide)).1⟩

/-- C6: when the provider call fails, the workflow enters the Error phase;
the stored message is the message of the thrown `Error` when one is carried
(a rejection with message "rate limited" stores exactly that text), and the
generic "An error occurred while generating the biography" otherwise; the
previous result is cleared in both cases. -/
theorem c6_provider_error_message (s : ComponentState) (m : String)
    (h : jsTrim s.bioInfo ≠ "") :
    (generateBiography true (.thrown (.errorObj m)) s).1.error = some m ∧
    (generateBiography true (.thrown (.errorObj m)) s).1.biography = "" ∧
    (generateBiography true (.thrown .other) s).1.error = some genericErrorMsg ∧
    (generateBiography true (.thrown .other) s).1.biography = "" := by
  simp [generateBiography, h, finallyStep, applyOutcome, applyFailure, startState, errToMessage]

/-- Witness for C6 with the provider rejecting with message "rate limited". -/
theorem c6_provider_error_message_witness :
    jsTrim ({ initialState with bioInfo := "Ada Lovelace" } : ComponentState).bioInfo ≠ "" ∧
    (generateBiography true (.thrown (.errorObj "rate limited"))
        { initialState with bioInfo := "Ada Lovelace" }).1.error = some "rate limited" :=
  ⟨by decide,
    (c6_provider_error_message { initialState with bioInfo := "Ada Lovelace" }
      "rate limited" (by decide)).1⟩

/-- C7: a successful response is stored trimmed of leading and trailing
whitespace with no other post-processing: the stored biography is exactly
`jsTrim` of the response text, the error slot stays clear, and loading ends. -/
theorem c7_trimmed_result (s : ComponentState) (text : String)
    (h : jsTrim s.bioInfo ≠ "") :
    (generateBiography true (.ok text) s).1.biography = jsTrim text ∧
    (generateBiography true (.ok text) s).1.error = none ∧
    (generateBiography true (.ok text) s).1.loading = false := by
  simp [generateBiography, h, finallyStep, applyOutcome, applySuccess, startState]

/-- Witness for C7: the response "  Hello world.  " is stored as exactly
"Hello world.". -/
theorem c7_trimmed_result_witness :
    jsTrim ({ initialState with bioInfo := "Ada Lovelace" } : ComponentState).bioInfo ≠ "" ∧
    (generateBiography true (.ok "  Hello world.  ")
        { initialState with bioInfo := "Ada Lovelace" }).1.biography = "Hello world." := by
  refine ⟨by decide, ?_⟩
  rw [(c7_trimmed_result { initialState with bioInfo := "Ada Lovelace" }
    "  Hello world.  " (by decide)).1]
  decide

/-- C8 (counterexample): accepting a new submission does not clear the prior
result. In a state holding a prior biography, a submission that passes the
guard enters the Loading phase with the prior biography still populated. -/
theorem c8_counterexample :
    jsTrim ({ initialState with bioInfo := "Ada Lovelace", biography := "Prior biography" } :
        ComponentState).bioInfo ≠ "" ∧
    (startState { initialState with
        bioInfo := "Ada Lovelace", biography := "Prior biography" }).loading = true ∧
    (startState { initialState with
        bioInfo := "Ada Lovelace", biography := "Prior biography" }).biography =
      "Prior biography" := by
  decide

/-- C8 (amended): a new accepted submission clears the previous error but
not the previous result: the prior biography remains populated while the
call is outstanding and is only replaced at settlement — by the trimmed
response text on success, or by the empty string on failure. -/
theorem c8_result_retained (s : ComponentState) :
    (startState s).biography = s.biography ∧
    (startState s).error = none ∧
    (∀ text, (applySuccess text s).biography = jsTrim text) ∧
    ∀ e, (applyFailure e s).biography = "" :=
  ⟨rfl, rfl, fun _ => rfl, fun _ => rfl⟩

/-- C9 (counterexample): there is no cancel-and-replace. With a copy at 0 ms
and a second copy at 1000 ms (inside the first 2000 ms window), the claim
requires the flag to stay true until 3000 ms, yet at 2500 ms it reads false:
the first timer was never cancelled and already reset the flag at 2000 ms. -/
theorem c9_counterexample :
    1000 < 0 + 2000 ∧ 2500 < 1000 + 2000 ∧ copiedAt [0, 1000] 2500 = false := by
  decide

/-- C9 (amended): invoking copy sets the flag and schedules an independent
single-shot reset 2000 ms later; timers are not cancelled on re-invocation.
With a single copy at time `c` the flag reads true exactly from `c` until
`c + 2000`; with a second copy issued inside the window of the first, the
flag still reads true only until 2000 ms after the first copy — the window
is not extended. -/
theorem c9_timer_no_extension (c t c1 c2 u : Nat) (h1 : c1 < c2)
    (h2 : c2 < c1 + 2000) :
    (copiedAt [c] t = true ↔ c ≤ t ∧ t < c + 2000) ∧
    (copiedAt [c1, c2] u = true ↔ c1 ≤ u ∧ u < c1 + 2000) := by
  simp only [copiedAt, List.any_cons, List.any_nil, List.all_cons, List.all_nil,
    Bool.or_false, Bool.and_true, Bool.and_eq_true, Bool.or_eq_true,
    decide_eq_true_eq]
  omega

/-- Witness for C9 (amended) with copies at 0 ms and 1000 ms, read at
2500 ms. -/
theorem c9_timer_no_extension_witness :
    (copiedAt [0] 2500 = true ↔ 0 ≤ 2500 ∧ 2500 < 0 + 2000) ∧
    (copiedAt [0, 1000] 2500 = true ↔ 0 ≤ 2500 ∧ 2500 < 0 + 2000) :=
  c9_timer_no_extension 0 2500 0 1000 2500 (by decide) (by decide)

/-- C10: every accepted submission ends with the loading flag false once the
attempt settles — success, provider failure and the missing-credential error
all run the finally block `setLoading(false)`. -/
theorem c10_loading_cleared (cfg : Bool) (o : ProviderOutcome)
    (s : ComponentState) (h : jsTrim s.bioInfo ≠ "") :
    (generateBiography cfg o s).1.loading = false := by
  cases cfg <;> simp [generateBiography, h, finallyStep]

/-- Witness for C10 at a concrete accepted submission. -/
theorem c10_loading_cleared_witness :
    jsTrim ({ initialState with bioInfo := "Ada Lovelace" } : ComponentState).bioInfo ≠ "" ∧
    (generateBiography true (.ok "bio")
        { initialState with bioInfo := "Ada Lovelace" }).1.loading = false :=
  ⟨by decide, c10_loading_cleared true (.ok "bio") _ (by decide)⟩

end BioGen
